import Mathlib

/-!
Verification of the physically simulated brush engine of the vectorvideo
repository (src/application_rewriten/src/VectorVideo/Drawing/DynaDraw.ts).

The embedding follows the TypeScript source line by line.  Numbers are
modelled as exact rationals; quantities produced by square roots
(vector magnitude, distances, the normal vector) live in the reals.

The Vector2 helper class is not part of the provided sources, so it is
modelled from the spec (section 3): a pair of numbers with add, subtract,
scale, perpendicular unit normal, squared magnitude, magnitude and
distance-to.  The spec notes that in-place mutation is used internally:
operations such as add, subtract and scale mutate the receiving object
and clone produces a fresh object.  The only place where this sharing is
observable in DynaDraw.ts is the assignment
previousPosition = position (without clone) in BrushTip.getRadius,
after which ApplyForce mutates the position object in place; the model
tracks this with the explicit prevAliasesPosition flag: while the flag
is set, every in-place update of position is replayed on
previousPosition, exactly as a shared heap object would behave.
-/

namespace VectorVideo

/-- Modelled from the spec: Vector2 is a pair of numbers. -/
abbrev Vec := ℚ × ℚ

/-- Modelled from the spec: Vector2 addition, componentwise. -/
def vadd (a b : Vec) : Vec := (a.1 + b.1, a.2 + b.2)

/-- Modelled from the spec: Vector2 subtraction, componentwise. -/
def vsub (a b : Vec) : Vec := (a.1 - b.1, a.2 - b.2)

/-- Modelled from the spec: Vector2 scaling by a scalar. -/
def vscale (k : ℚ) (a : Vec) : Vec := (k * a.1, k * a.2)

/-- Modelled from the spec: squared magnitude of a Vector2. -/
def getSizeSq (a : Vec) : ℚ := a.1 * a.1 + a.2 * a.2

/-- Modelled from the spec: magnitude of a Vector2 (square root, hence real). -/
noncomputable def getSize (a : Vec) : ℝ := Real.sqrt ((getSizeSq a : ℚ) : ℝ)

/-- Modelled from the spec: distance between two Vector2 points. -/
noncomputable def distanceTo (a b : Vec) : ℝ := getSize (vsub a b)

/-- Modelled from the spec: perpendicular unit normal of a Vector2.  The
spec fixes only that it is a unit vector perpendicular to the argument,
so the choice of the two possible directions is arbitrary here; no claim
depends on the direction. -/
noncomputable def getNormal (a : Vec) : ℝ × ℝ :=
  (-(a.2 : ℝ) / getSize a, (a.1 : ℝ) / getSize a)

/-- BrushInstance from DynaDraw.ts lines 210 to 215: immutable mass,
friction and size of one brush. -/
structure BrushInstance where
  mass : ℚ
  friction : ℚ
  size : ℚ
  deriving DecidableEq

/-- Threshold.Force from DynaDraw.ts line 218. -/
def forceThreshold : ℚ := 1

/-- Threshold.Velocity from DynaDraw.ts line 219. -/
def velocityThreshold : ℚ := 1

/-- BrushTip state, fields as in DynaDraw.ts lines 226 to 257.  The
acceleration field is an Option because the source sets it to null at
the end of a full ApplyForce step.  The angle field is the orientation
vector (a scaled unit normal, hence real valued).  The
prevAliasesPosition flag models the heap sharing created by the
reference assignment previousPosition = position in getRadius
(line 344), see the file header. -/
structure BrushTip where
  calculateSpeed : Bool
  position : Vec
  startPosition : Vec
  velocity : Vec
  acceleration : Option Vec
  angle : ℝ × ℝ
  brush : BrushInstance
  firstSegment : Bool
  previousPosition : Vec
  previousPressure : ℝ
  mousePosition : Vec
  prevAliasesPosition : Bool

/-- BrushTip.Reset, DynaDraw.ts lines 263 to 273.  Every field is set
from a fresh clone, so no aliasing survives a reset.  The angle field is
not touched by the source and is therefore kept. -/
def reset (position : Vec) (brush : BrushInstance) (s : BrushTip) : BrushTip :=
  { s with
    brush := brush
    position := position
    startPosition := position
    previousPosition := position
    previousPressure := -1
    mousePosition := position
    acceleration := some (0, 0)
    velocity := (0, 0)
    firstSegment := true
    prevAliasesPosition := false }

/-- BrushTip.ApplyForce, DynaDraw.ts lines 281 to 311.  Returns the
squared moved distance together with the new state.  The first early
return (force below threshold, line 284) changes nothing; the second
early return (velocity below threshold, line 291) happens after the
velocity has already been incremented by the acceleration and the
acceleration field has been set.  In the full branch the mouse position
is saved, the acceleration is cleared (set to null in the source), the
angle is taken from the velocity before the drag is applied, the
velocity is scaled by (1 - friction) * elapsedFrames and the position
advances by the scaled velocity; because position is mutated in place,
an aliased previousPosition moves with it. -/
noncomputable def applyForce (mouse : Vec) (elapsedFrames : ℚ) (s : BrushTip) :
    ℚ × BrushTip :=
  let force := vsub mouse s.position
  if getSizeSq force < forceThreshold then (0, s)
  else
    let acceleration := vscale (1 / s.brush.mass) force
    let velocity1 := vadd s.velocity acceleration
    if getSizeSq velocity1 < velocityThreshold then
      (0, { s with velocity := velocity1, acceleration := some acceleration })
    else
      let velocity2 := vscale ((1 - s.brush.friction) * elapsedFrames) velocity1
      let position2 := vadd s.position velocity2
      (getSizeSq velocity2,
        { s with
          mousePosition := mouse
          acceleration := none
          angle := getNormal velocity1
          velocity := velocity2
          position := position2
          previousPosition :=
            if s.prevAliasesPosition then position2 else s.previousPosition })

/-- Unfolding of applyForce when the force is below the threshold. -/
theorem applyForce_small (mouse : Vec) (elapsedFrames : ℚ) (s : BrushTip)
    (h1 : getSizeSq (vsub mouse s.position) < forceThreshold) :
    applyForce mouse elapsedFrames s = (0, s) := by
  simp only [applyForce]
  rw [if_pos h1]

/-- Unfolding of applyForce when the force passes the threshold but the
incremented velocity stays below the velocity threshold. -/
theorem applyForce_slow (mouse : Vec) (elapsedFrames : ℚ) (s : BrushTip)
    (h1 : ¬ getSizeSq (vsub mouse s.position) < forceThreshold)
    (h2 : getSizeSq (vadd s.velocity (vscale (1 / s.brush.mass) (vsub mouse s.position)))
      < velocityThreshold) :
    applyForce mouse elapsedFrames s =
      (0, { s with
            velocity := vadd s.velocity (vscale (1 / s.brush.mass) (vsub mouse s.position))
            acceleration := some (vscale (1 / s.brush.mass) (vsub mouse s.position)) }) := by
  simp only [applyForce]
  rw [if_neg h1, if_pos h2]

/-- Unfolding of applyForce in the full movement branch. -/
theorem applyForce_move (mouse : Vec) (elapsedFrames : ℚ) (s : BrushTip)
    (h1 : ¬ getSizeSq (vsub mouse s.position) < forceThreshold)
    (h2 : ¬ getSizeSq (vadd s.velocity (vscale (1 / s.brush.mass) (vsub mouse s.position)))
      < velocityThreshold) :
    applyForce mouse elapsedFrames s =
      (getSizeSq (vscale ((1 - s.brush.friction) * elapsedFrames)
          (vadd s.velocity (vscale (1 / s.brush.mass) (vsub mouse s.position)))),
        { s with
          mousePosition := mouse
          acceleration := none
          angle := getNormal (vadd s.velocity (vscale (1 / s.brush.mass) (vsub mouse s.position)))
          velocity := vscale ((1 - s.brush.friction) * elapsedFrames)
            (vadd s.velocity (vscale (1 / s.brush.mass) (vsub mouse s.position)))
          position := vadd s.position (vscale ((1 - s.brush.friction) * elapsedFrames)
            (vadd s.velocity (vscale (1 / s.brush.mass) (vsub mouse s.position))))
          previousPosition :=
            if s.prevAliasesPosition then
              vadd s.position (vscale ((1 - s.brush.friction) * elapsedFrames)
                (vadd s.velocity (vscale (1 / s.brush.mass) (vsub mouse s.position))))
            else s.previousPosition }) := by
  simp only [applyForce]
  rw [if_neg h1, if_neg h2]

/-- ApplyForce never touches the firstSegment flag. -/
theorem applyForce_firstSegment (mouse : Vec) (elapsedFrames : ℚ) (s : BrushTip) :
    ((applyForce mouse elapsedFrames s).2).firstSegment = s.firstSegment := by
  simp only [applyForce]
  split <;> [rfl; skip]
  split <;> rfl

/-- ApplyForce never changes the brush profile. -/
theorem applyForce_brush (mouse : Vec) (elapsedFrames : ℚ) (s : BrushTip) :
    ((applyForce mouse elapsedFrames s).2).brush = s.brush := by
  simp only [applyForce]
  split <;> [rfl; skip]
  split <;> rfl

/-- BrushTip state as it comes out of the BrushTip constructor
(DynaDraw.ts line 257 together with line 81: DynaDraw always constructs
the tip with calculateSpeed = true).  The remaining fields are not
initialised by the constructor; they are given harmless defaults here
and every claim first goes through Reset, which overwrites them. -/
noncomputable def blankTip : BrushTip :=
  { calculateSpeed := true
    position := (0, 0)
    startPosition := (0, 0)
    velocity := (0, 0)
    acceleration := none
    angle := (0, 0)
    brush := ⟨0, 0, 0⟩
    firstSegment := true
    previousPosition := (0, 0)
    previousPressure := 0
    mousePosition := (0, 0)
    prevAliasesPosition := false }

/-- Brush profile of Scenario A of the spec: mass 5, friction one half
(the size 10 is arbitrary, no claim about this brush uses it). -/
def scenarioBrush : BrushInstance := ⟨5, 1/2, 10⟩

/-- BrushTip freshly reset at the origin with the Scenario A brush. -/
noncomputable def tipA : BrushTip := reset (0, 0) scenarioBrush blankTip

/-- C1: for a BrushTip freshly Reset at (0,0) with mass 5 and friction
0.5, a single ApplyForce with target (10,0) and elapsedFrames 1 returns
squared moved distance exactly 1 and leaves velocity (1,0) and
position (1,0). -/
theorem scenarioA_applyForce :
    (applyForce (10, 0) 1 tipA).1 = 1 ∧
    (applyForce (10, 0) 1 tipA).2.velocity = ((1 : ℚ), (0 : ℚ)) ∧
    (applyForce (10, 0) 1 tipA).2.position = ((1 : ℚ), (0 : ℚ)) := by
  have h1 : ¬ getSizeSq (vsub (10, 0) tipA.position) < forceThreshold := by
    norm_num [tipA, reset, blankTip, vsub, getSizeSq, forceThreshold]
  have h2 : ¬ getSizeSq (vadd tipA.velocity
      (vscale (1 / tipA.brush.mass) (vsub (10, 0) tipA.position))) < velocityThreshold := by
    norm_num [tipA, reset, blankTip, scenarioBrush, vsub, vadd, vscale, getSizeSq,
      velocityThreshold]
  rw [applyForce_move (10, 0) 1 tipA h1 h2]
  norm_num [tipA, reset, blankTip, scenarioBrush, vsub, vadd, vscale, getSizeSq]

/-- C8: ApplyForce with the target equal to the current position returns
0 and leaves position and velocity unchanged (the force is the zero
vector, whose squared size is below the force threshold). -/
theorem applyForce_at_position (s : BrushTip) (elapsedFrames : ℚ) (mouse : Vec)
    (h : mouse = s.position) :
    (applyForce mouse elapsedFrames s).1 = 0 ∧
    (applyForce mouse elapsedFrames s).2.position = s.position ∧
    (applyForce mouse elapsedFrames s).2.velocity = s.velocity := by
  have h1 : getSizeSq (vsub mouse s.position) < forceThreshold := by
    subst h
    simp [vsub, getSizeSq, forceThreshold]
  rw [applyForce_small mouse elapsedFrames s h1]
  exact ⟨rfl, rfl, rfl⟩

/-- Witness for C8 at a concrete state: the blank tip sits at the
origin, and ApplyForce aimed at the origin returns 0 and moves
nothing. -/
theorem applyForce_at_position_witness :
    (applyForce (0, 0) 1 blankTip).1 = 0 ∧
    (applyForce (0, 0) 1 blankTip).2.position = blankTip.position ∧
    (applyForce (0, 0) 1 blankTip).2.velocity = blankTip.velocity :=
  applyForce_at_position blankTip 1 (0, 0) rfl

/-- BrushTip used to demonstrate velocity accumulation across calls that
return 0: at rest at the origin with a brush of mass 3. -/
noncomputable def accTip : BrushTip :=
  { blankTip with position := (0, 0), velocity := (0, 0), brush := ⟨3, 1/2, 1⟩ }

/-- C10: when the force passes the force threshold but the incremented
velocity stays below the velocity threshold, ApplyForce returns 0 having
nonetheless kept the velocity increment (velocity becomes
velocity + force / mass) while position, orientation and the saved raw
pointer position are unchanged; and the increments accumulate across
such calls, shown by a concrete brush for which the first call returns 0
and the second call, thanks to the retained velocity, returns a nonzero
distance. -/
theorem applyForce_subthreshold :
    (∀ (s : BrushTip) (mouse : Vec) (elapsedFrames : ℚ),
      ¬ getSizeSq (vsub mouse s.position) < forceThreshold →
      getSizeSq (vadd s.velocity (vscale (1 / s.brush.mass) (vsub mouse s.position)))
        < velocityThreshold →
      (applyForce mouse elapsedFrames s).1 = 0 ∧
      (applyForce mouse elapsedFrames s).2.velocity =
        vadd s.velocity (vscale (1 / s.brush.mass) (vsub mouse s.position)) ∧
      (applyForce mouse elapsedFrames s).2.position = s.position ∧
      (applyForce mouse elapsedFrames s).2.angle = s.angle ∧
      (applyForce mouse elapsedFrames s).2.mousePosition = s.mousePosition) ∧
    ((applyForce (2, 0) 1 accTip).1 = 0 ∧
      (applyForce (2, 0) 1 (applyForce (2, 0) 1 accTip).2).1 ≠ 0) := by
  constructor
  · intro s mouse elapsedFrames h1 h2
    rw [applyForce_slow mouse elapsedFrames s h1 h2]
    exact ⟨rfl, rfl, rfl, rfl, rfl⟩
  · have h1 : ¬ getSizeSq (vsub (2, 0) accTip.position) < forceThreshold := by
      norm_num [accTip, blankTip, vsub, getSizeSq, forceThreshold]
    have h2 : getSizeSq (vadd accTip.velocity
        (vscale (1 / accTip.brush.mass) (vsub (2, 0) accTip.position))) < velocityThreshold := by
      norm_num [accTip, blankTip, vsub, vadd, vscale, getSizeSq, velocityThreshold]
    rw [applyForce_slow (2, 0) 1 accTip h1 h2]
    have h3 : ¬ getSizeSq (vsub (2, 0)
        ({ accTip with
            velocity := vadd accTip.velocity
              (vscale (1 / accTip.brush.mass) (vsub (2, 0) accTip.position))
            acceleration := some (vscale (1 / accTip.brush.mass)
              (vsub (2, 0) accTip.position)) } : BrushTip).position) < forceThreshold := by
      norm_num [accTip, blankTip, vsub, getSizeSq, forceThreshold]
    have h4 : ¬ getSizeSq (vadd ({ accTip with
            velocity := vadd accTip.velocity
              (vscale (1 / accTip.brush.mass) (vsub (2, 0) accTip.position))
            acceleration := some (vscale (1 / accTip.brush.mass)
              (vsub (2, 0) accTip.position)) } : BrushTip).velocity
        (vscale (1 / ({ accTip with
            velocity := vadd accTip.velocity
              (vscale (1 / accTip.brush.mass) (vsub (2, 0) accTip.position))
            acceleration := some (vscale (1 / accTip.brush.mass)
              (vsub (2, 0) accTip.position)) } : BrushTip).brush.mass)
          (vsub (2, 0) ({ accTip with
            velocity := vadd accTip.velocity
              (vscale (1 / accTip.brush.mass) (vsub (2, 0) accTip.position))
            acceleration := some (vscale (1 / accTip.brush.mass)
              (vsub (2, 0) accTip.position)) } : BrushTip).position))) < velocityThreshold := by
      norm_num [accTip, blankTip, vsub, vadd, vscale, getSizeSq, velocityThreshold]
    rw [applyForce_move _ 1 _ h3 h4]
    norm_num [accTip, blankTip, vsub, vadd, vscale, getSizeSq]

/-- Witness for C10 at a concrete sub-threshold call: the accTip brush
(mass 3) aimed at (2,0) receives force (2,0), acceleration (2/3,0), and
the call returns 0 with the velocity kept at (2/3,0) and position,
orientation and saved pointer position unchanged. -/
theorem applyForce_subthreshold_witness :
    (applyForce (2, 0) 1 accTip).1 = 0 ∧
    (applyForce (2, 0) 1 accTip).2.velocity =
      vadd accTip.velocity (vscale (1 / accTip.brush.mass) (vsub (2, 0) accTip.position)) ∧
    (applyForce (2, 0) 1 accTip).2.position = accTip.position ∧
    (applyForce (2, 0) 1 accTip).2.angle = accTip.angle ∧
    (applyForce (2, 0) 1 accTip).2.mousePosition = accTip.mousePosition :=
  applyForce_subthreshold.1 accTip (2, 0) 1
    (by norm_num [accTip, blankTip, vsub, getSizeSq, forceThreshold])
    (by norm_num [accTip, blankTip, vsub, vadd, vscale, getSizeSq, velocityThreshold])

/-- State of the brush after n repeated calls ApplyForce(target, 1),
as performed by DynaDraw.TickWhile (DynaDraw.ts line 164). -/
noncomputable def iterTip (target : Vec) (s : BrushTip) : ℕ → BrushTip
  | 0 => s
  | n + 1 => (applyForce target 1 (iterTip target s n)).2

/-- Squared distance returned by the call ApplyForce(target, 1) made
after n previous such calls. -/
noncomputable def iterRes (target : Vec) (s : BrushTip) (n : ℕ) : ℚ :=
  (applyForce target 1 (iterTip target s n)).1

/-- Repeatedly calling ApplyForce(target, 1) eventually returns 0. -/
def eventuallyStops (target : Vec) (s : BrushTip) : Prop :=
  ∃ n, iterRes target s n = 0

/-- Region of the scalar phase space (e the distance to the target
along the moving axis, v the velocity along it) that the step of
ApplyForce with mass 1/10 and friction 0 maps into itself while the
magnitudes keep growing, so neither threshold ever triggers. -/
def badP (e v : ℚ) : Prop :=
  (1 ≤ e ∧ -(6/5) * e ≤ v ∧ v ≤ -(21/20) * e) ∨
  (e ≤ -1 ∧ -(21/20) * e ≤ v ∧ v ≤ -(6/5) * e)

theorem badP_force (e v : ℚ) (h : badP e v) : 1 ≤ e * e := by
  rcases h with ⟨h1, _, _⟩ | ⟨h1, _, _⟩ <;> nlinarith

theorem badP_vel (e v : ℚ) (h : badP e v) : 1 ≤ (v + 10 * e) * (v + 10 * e) := by
  rcases h with ⟨h1, h2, h3⟩ | ⟨h1, h2, h3⟩ <;> nlinarith

theorem badP_next (e v : ℚ) (h : badP e v) : badP (-9 * e - v) (v + 10 * e) := by
  rcases h with ⟨h1, h2, h3⟩ | ⟨h1, h2, h3⟩
  · exact Or.inr ⟨by linarith, by linarith, by linarith⟩
  · exact Or.inl ⟨by linarith, by linarith, by linarith⟩

/-- Invariant for the diverging run: the brush has mass 1/10 and
friction 0, moves along the x axis towards the target (10, 0), and its
scalar state lies in the self-mapping region badP. -/
def badInv (s : BrushTip) : Prop :=
  s.brush = ⟨1/10, 0, 1⟩ ∧ s.position.2 = 0 ∧ s.velocity.2 = 0 ∧
  badP (10 - s.position.1) s.velocity.1

theorem badInv_step (s : BrushTip) (h : badInv s) :
    (applyForce (10, 0) 1 s).1 ≠ 0 ∧ badInv ((applyForce (10, 0) 1 s).2) := by
  obtain ⟨hb, hp2, hv2, hP⟩ := h
  have hforce : vsub (10, 0) s.position = (10 - s.position.1, 0) := by
    simp [vsub, hp2]
  have h1 : ¬ getSizeSq (vsub (10, 0) s.position) < forceThreshold := by
    rw [hforce, not_lt]
    have := badP_force _ _ hP
    simp only [getSizeSq, forceThreshold]
    nlinarith
  have hacc : vscale (1 / s.brush.mass) (vsub (10, 0) s.position) =
      (10 * (10 - s.position.1), 0) := by
    rw [hforce, hb]
    norm_num [vscale]
  have hvel1 : vadd s.velocity (vscale (1 / s.brush.mass) (vsub (10, 0) s.position)) =
      (s.velocity.1 + 10 * (10 - s.position.1), 0) := by
    rw [hacc]
    simp [vadd, hv2]
  have h2 : ¬ getSizeSq (vadd s.velocity
      (vscale (1 / s.brush.mass) (vsub (10, 0) s.position))) < velocityThreshold := by
    rw [hvel1, not_lt]
    have := badP_vel _ _ hP
    simp only [getSizeSq, velocityThreshold]
    nlinarith
  rw [applyForce_move _ _ _ h1 h2]
  have hscale : vscale ((1 - s.brush.friction) * 1)
      (vadd s.velocity (vscale (1 / s.brush.mass) (vsub (10, 0) s.position))) =
      (s.velocity.1 + 10 * (10 - s.position.1), 0) := by
    rw [hvel1, hb]
    norm_num [vscale]
  constructor
  · rw [hscale]
    have := badP_vel _ _ hP
    simp only [getSizeSq]
    intro h0
    nlinarith
  · refine ⟨hb, ?_, ?_, ?_⟩
    · rw [hscale]
      simp [vadd, hp2]
    · rw [hscale]
    · rw [hscale]
      simp only [vadd]
      have he : 10 - (s.position.1 + (s.velocity.1 + 10 * (10 - s.position.1))) =
          -9 * (10 - s.position.1) - s.velocity.1 := by ring
      rw [he]
      exact badP_next _ _ hP

/-- BrushTip witnessing divergence: a light slippery brush (mass 1/10,
friction 0) at the origin with velocity (-11, 0), aimed at (10, 0). -/
noncomputable def badTip : BrushTip :=
  { blankTip with position := (0, 0), velocity := (-11, 0), brush := ⟨1/10, 0, 1⟩ }

/-- Counterexample to C7 as stated: badTip has positive mass and
friction below 1, yet repeatedly calling ApplyForce((10,0), 1) from it
never returns 0 (the state oscillates with growing magnitude and both
thresholds stay passed forever). -/
theorem applyForce_no_convergence :
    0 < badTip.brush.mass ∧ badTip.brush.friction < 1 ∧
    ¬ eventuallyStops (10, 0) badTip := by
  refine ⟨by norm_num [badTip, blankTip], by norm_num [badTip, blankTip], ?_⟩
  have hinv : ∀ n, badInv (iterTip (10, 0) badTip n) := by
    intro n
    induction n with
    | zero =>
      simp only [iterTip]
      refine ⟨rfl, rfl, rfl, Or.inl ⟨?_, ?_, ?_⟩⟩ <;>
        norm_num [badTip, blankTip]
    | succ n ih => exact (badInv_step _ ih).2
  rintro ⟨n, hn⟩
  exact (badInv_step _ (hinv n)).1 hn

/-- Quadratic Lyapunov function for the ApplyForce step with mass 5 and
friction 1/2 (the Scenario A brush): for each coordinate, with
e the offset to the target and v the velocity, the full step maps
(v, e) to (v/2 + e/10, 9e/10 - v/2), and
114 v^2 - 128 v e + 98 e^2 decreases by exactly 29 (v^2 + e^2). -/
def lyap (target : Vec) (s : BrushTip) : ℚ :=
  114 * (s.velocity.1 * s.velocity.1 + s.velocity.2 * s.velocity.2)
    - 128 * (s.velocity.1 * (target.1 - s.position.1)
      + s.velocity.2 * (target.2 - s.position.2))
    + 98 * ((target.1 - s.position.1) * (target.1 - s.position.1)
      + (target.2 - s.position.2) * (target.2 - s.position.2))

theorem lyap_nonneg (t : Vec) (s : BrushTip) : 0 ≤ lyap t s := by
  have a1 := sq_nonneg (114 * s.velocity.1 - 64 * (t.1 - s.position.1))
  have a2 := sq_nonneg (114 * s.velocity.2 - 64 * (t.2 - s.position.2))
  have b1 := sq_nonneg (t.1 - s.position.1)
  have b2 := sq_nonneg (t.2 - s.position.2)
  simp only [lyap]
  nlinarith

theorem lyap_step (t : Vec) (s : BrushTip) (hm : s.brush.mass = 5)
    (hf : s.brush.friction = 1/2) (hr : (applyForce t 1 s).1 ≠ 0) :
    lyap t ((applyForce t 1 s).2) ≤ lyap t s - 29 := by
  by_cases h1 : getSizeSq (vsub t s.position) < forceThreshold
  · exact absurd (congrArg Prod.fst (applyForce_small t 1 s h1)) hr
  by_cases h2 : getSizeSq (vadd s.velocity
      (vscale (1 / s.brush.mass) (vsub t s.position))) < velocityThreshold
  · exact absurd (congrArg Prod.fst (applyForce_slow t 1 s h1 h2)) hr
  rw [applyForce_move _ _ _ h1 h2]
  rw [not_lt] at h1
  simp only [getSizeSq, vsub, forceThreshold] at h1
  have hv1 : 0 ≤ s.velocity.1 * s.velocity.1 + s.velocity.2 * s.velocity.2 := by
    have := mul_self_nonneg s.velocity.1
    have := mul_self_nonneg s.velocity.2
    linarith
  simp only [lyap, vadd, vscale, vsub, hm, hf]
  nlinarith

/-- Amended C7: with the Scenario A brush profile (mass 5 and friction
one half), repeated calls ApplyForce(target, 1) from every starting
state with every fixed target eventually return 0: the Lyapunov value
drops by at least 29 on every call that returns a nonzero distance, and
it can never become negative. -/
theorem applyForce_convergence_massFive (s : BrushTip) (t : Vec)
    (hm : s.brush.mass = 5) (hf : s.brush.friction = 1/2) :
    eventuallyStops t s := by
  by_contra h
  simp only [eventuallyStops, not_exists] at h
  have hbrush : ∀ n, (iterTip t s n).brush = s.brush := by
    intro n
    induction n with
    | zero => rfl
    | succ n ih => rw [iterTip, applyForce_brush, ih]
  have hdec : ∀ n, lyap t (iterTip t s n) ≤ lyap t s - 29 * n := by
    intro n
    induction n with
    | zero => simp [iterTip]
    | succ n ih =>
      have hstep := lyap_step t (iterTip t s n)
        (by rw [hbrush n, hm]) (by rw [hbrush n, hf]) (h n)
      rw [iterTip]
      push_cast
      push_cast at ih
      linarith
  obtain ⟨n, hng⟩ := exists_nat_gt (lyap t s / 29)
  have hpos := lyap_nonneg t (iterTip t s n)
  have hlt : lyap t s < 29 * n := by
    rw [div_lt_iff₀ (by norm_num : (0:ℚ) < 29)] at hng
    linarith
  have := hdec n
  linarith

/-- Witness for the amended C7: the freshly reset Scenario A tip aimed
at (10, 0) eventually comes to rest. -/
theorem applyForce_convergence_massFive_witness :
    eventuallyStops (10, 0) tipA :=
  applyForce_convergence_massFive tipA (10, 0) rfl rfl

open Classical

/-- BrushTip.interpolatePressure, DynaDraw.ts lines 352 to 360: blends
the raw pressure with the previously interpolated pressure according to
the distance the brush travelled (d1) against the distance to the last
raw pointer position (d2); when both distances are zero the raw
pressure is returned unchanged. -/
noncomputable def interpolatePressure (s : BrushTip) (mousePressure : ℝ) : ℝ :=
  let d1 := distanceTo s.position s.previousPosition
  let d2 := distanceTo s.position s.mousePosition
  if d1 = 0 ∧ d2 = 0 then mousePressure
  else (d1 / (d1 + d2)) * (mousePressure - s.previousPressure) + s.previousPressure

/-- BrushTip.speedFactor, DynaDraw.ts lines 365 to 367. -/
noncomputable def speedFactor (speed : ℝ) : ℝ := max (1 - speed) (2/5)

/-- BrushTip.getRadius, DynaDraw.ts lines 337 to 347: interpolates the
pressure (after seeding previousPressure on the very first call) and
derives the stroke half width; as a side effect it stores the
interpolated pressure and assigns the position object itself (not a
clone) to previousPosition, which the model records by setting the
prevAliasesPosition flag. -/
noncomputable def getRadius (pressure speed : ℝ) (s : BrushTip) : ℝ × BrushTip :=
  let s0 := if s.previousPressure < 0 then { s with previousPressure := pressure } else s
  let interpolated := interpolatePressure s0 pressure
  let radius := speedFactor speed * (s.brush.size : ℝ) * interpolated / 2
  (radius,
    { s0 with
      previousPosition := s0.position
      prevAliasesPosition := true
      previousPressure := interpolated })

/-- C4: interpolatePressure returns the raw pressure exactly when both
d1 (distance from the position to the previous position) and d2
(distance from the position to the last raw pointer position) are zero,
and otherwise returns
(d1 / (d1 + d2)) * (rawPressure - previousPressure) + previousPressure. -/
theorem interpolatePressure_formula (s : BrushTip) (p : ℝ) :
    (distanceTo s.position s.previousPosition = 0 ∧
        distanceTo s.position s.mousePosition = 0 →
      interpolatePressure s p = p) ∧
    (¬ (distanceTo s.position s.previousPosition = 0 ∧
        distanceTo s.position s.mousePosition = 0) →
      interpolatePressure s p =
        (distanceTo s.position s.previousPosition /
            (distanceTo s.position s.previousPosition +
              distanceTo s.position s.mousePosition)) *
          (p - s.previousPressure) + s.previousPressure) := by
  constructor <;> intro h <;> simp only [interpolatePressure] <;>
    [rw [if_pos h]; rw [if_neg h]]

/-- BrushTip with position, previous position and raw pointer position
all equal, used to witness the degenerate branch of C4. -/
noncomputable def tipEq : BrushTip :=
  { blankTip with
    position := (2, 3), previousPosition := (2, 3), mousePosition := (2, 3)
    previousPressure := 1/2 }

/-- BrushTip with distances d1 = 5 and d2 = 1, used to witness the
interpolating branch of C4. -/
noncomputable def tipNe : BrushTip :=
  { blankTip with
    position := (0, 0), previousPosition := (3, 4), mousePosition := (0, 1)
    previousPressure := 1/2 }

/-- Witness for C4 at concrete states: with zero displacement the raw
pressure 7/10 passes through unchanged, and with d1 = 5, d2 = 1 and
previous pressure 1/2 the raw pressure 1 is interpolated to 11/12. -/
theorem interpolatePressure_formula_witness :
    interpolatePressure tipEq (7/10) = 7/10 ∧
    interpolatePressure tipNe 1 = 11/12 := by
  have d0 : distanceTo tipEq.position tipEq.previousPosition = 0 := by
    simp [tipEq, blankTip, distanceTo, getSize, vsub, getSizeSq]
  have d0m : distanceTo tipEq.position tipEq.mousePosition = 0 := by
    simp [tipEq, blankTip, distanceTo, getSize, vsub, getSizeSq]
  have d1 : distanceTo tipNe.position tipNe.previousPosition = 5 := by
    simp only [tipNe, blankTip, distanceTo, getSize, vsub, getSizeSq]
    rw [show ((((0:ℚ) - 3) * ((0:ℚ) - 3) + ((0:ℚ) - 4) * ((0:ℚ) - 4) : ℚ) : ℝ)
        = (5 : ℝ)^2 by norm_num]
    exact Real.sqrt_sq (by norm_num)
  have d2 : distanceTo tipNe.position tipNe.mousePosition = 1 := by
    simp only [tipNe, blankTip, distanceTo, getSize, vsub, getSizeSq]
    rw [show ((((0:ℚ) - 0) * ((0:ℚ) - 0) + ((0:ℚ) - 1) * ((0:ℚ) - 1) : ℚ) : ℝ)
        = (1 : ℝ)^2 by norm_num]
    exact Real.sqrt_sq (by norm_num)
  constructor
  · exact (interpolatePressure_formula tipEq (7/10)).1 ⟨d0, d0m⟩
  · rw [(interpolatePressure_formula tipNe 1).2 (by rw [d1]; norm_num), d1, d2]
    norm_num [tipNe, blankTip]

/-- Calls made on the output Path.  The claims only constrain the
sequence of calls, so the geometric arguments of the calls are not
modelled. -/
inductive PathEvent where
  | startPath
  | initPath
  | extendPath
  | drawCall
  deriving DecidableEq

@[simp]
theorem getRadius_position (p sp : ℝ) (s : BrushTip) :
    ((getRadius p sp s).2).position = s.position := by
  simp only [getRadius]
  split <;> rfl

@[simp]
theorem getRadius_velocity (p sp : ℝ) (s : BrushTip) :
    ((getRadius p sp s).2).velocity = s.velocity := by
  simp only [getRadius]
  split <;> rfl

@[simp]
theorem getRadius_brush (p sp : ℝ) (s : BrushTip) :
    ((getRadius p sp s).2).brush = s.brush := by
  simp only [getRadius]
  split <;> rfl

@[simp]
theorem getRadius_firstSegment (p sp : ℝ) (s : BrushTip) :
    ((getRadius p sp s).2).firstSegment = s.firstSegment := by
  simp only [getRadius]
  split <;> rfl

@[simp]
theorem getRadius_mousePosition (p sp : ℝ) (s : BrushTip) :
    ((getRadius p sp s).2).mousePosition = s.mousePosition := by
  simp only [getRadius]
  split <;> rfl

@[simp]
theorem getRadius_prevAliases (p sp : ℝ) (s : BrushTip) :
    ((getRadius p sp s).2).prevAliasesPosition = true := by
  simp only [getRadius]

@[simp]
theorem getRadius_previousPosition (p sp : ℝ) (s : BrushTip) :
    ((getRadius p sp s).2).previousPosition = s.position := by
  simp only [getRadius]
  split <;> rfl

/-- BrushTip.Draw, DynaDraw.ts lines 316 to 328: computes the relative
speed and the stroke half width, scales the orientation vector in
place, calls path.InitPath once on the first segment of the stroke and
clears the flag, and always calls path.ExtendPath followed by
path.Draw.  The function returns the new state together with the list
of calls made on the path. -/
noncomputable def draw (pressure : ℝ) (s : BrushTip) : BrushTip × List PathEvent :=
  let relativeSpeed : ℝ :=
    if s.calculateSpeed then getSize s.velocity / ((s.brush.size * s.brush.size : ℚ) : ℝ)
    else 0
  let r := getRadius pressure relativeSpeed s
  let s2 := { r.2 with angle := (r.1 * (r.2).angle.1, r.1 * (r.2).angle.2) }
  if s2.firstSegment then
    ({ s2 with firstSegment := false },
      [PathEvent.initPath, PathEvent.extendPath, PathEvent.drawCall])
  else
    (s2, [PathEvent.extendPath, PathEvent.drawCall])

/-- BrushTip.StartPath, DynaDraw.ts lines 330 to 332: a zero speed call
to getRadius followed by path.StartPath. -/
noncomputable def tipStartPath (pressure : ℝ) (s : BrushTip) : BrushTip × List PathEvent :=
  ((getRadius pressure 0 s).2, [PathEvent.startPath])

@[simp]
theorem draw_firstSegment (p : ℝ) (s : BrushTip) :
    ((draw p s).1).firstSegment = false := by
  simp only [draw, getRadius_firstSegment]
  split_ifs <;> simp_all

@[simp]
theorem draw_events (p : ℝ) (s : BrushTip) :
    (draw p s).2 = if s.firstSegment then
      [PathEvent.initPath, PathEvent.extendPath, PathEvent.drawCall]
    else [PathEvent.extendPath, PathEvent.drawCall] := by
  simp only [draw, getRadius_firstSegment]
  split_ifs <;> rfl

@[simp]
theorem draw_position (p : ℝ) (s : BrushTip) :
    ((draw p s).1).position = s.position := by
  simp only [draw]
  split_ifs <;> simp

@[simp]
theorem draw_velocity (p : ℝ) (s : BrushTip) :
    ((draw p s).1).velocity = s.velocity := by
  simp only [draw]
  split_ifs <;> simp

@[simp]
theorem draw_brush (p : ℝ) (s : BrushTip) :
    ((draw p s).1).brush = s.brush := by
  simp only [draw]
  split_ifs <;> simp

@[simp]
theorem draw_prevAliases (p : ℝ) (s : BrushTip) :
    ((draw p s).1).prevAliasesPosition = true := by
  simp only [draw]
  split_ifs <;> simp

@[simp]
theorem draw_previousPosition (p : ℝ) (s : BrushTip) :
    ((draw p s).1).previousPosition = s.position := by
  simp only [draw]
  split_ifs <;> simp

/-- Run of one stroke after Reset, as driven by DynaDraw.TickWhile: for
each entry (target, elapsedFrames) of the list one ApplyForce is made
and then one Draw; the path calls of all Draw steps are concatenated in
order. -/
noncomputable def strokeDraws (pressure : ℝ) : BrushTip → List (Vec × ℚ) → BrushTip × List PathEvent
  | s, [] => (s, [])
  | s, (t, ef) :: rest =>
    let s1 := (applyForce t ef s).2
    let d := draw pressure s1
    let r := strokeDraws pressure d.1 rest
    (r.1, d.2 ++ r.2)

/-- Every ApplyForce along the run returns a nonzero squared distance
(the hypothesis of C2). -/
noncomputable def allMoves (pressure : ℝ) : BrushTip → List (Vec × ℚ) → Prop
  | _, [] => True
  | s, (t, ef) :: rest =>
    (applyForce t ef s).1 ≠ 0 ∧
      allMoves pressure ((draw pressure (applyForce t ef s).2).1) rest

/-- Path calls emitted by n Draw steps that are not the first segment:
each contributes ExtendPath immediately followed by Draw. -/
def segTrace : ℕ → List PathEvent
  | 0 => []
  | n + 1 => PathEvent.extendPath :: PathEvent.drawCall :: segTrace n

theorem strokeDraws_not_first (pressure : ℝ) (moves : List (Vec × ℚ)) :
    ∀ s : BrushTip, s.firstSegment = false →
      (strokeDraws pressure s moves).2 = segTrace moves.length := by
  induction moves with
  | nil => intro s _; rfl
  | cons m rest ih =>
    intro s h
    obtain ⟨t, ef⟩ := m
    have h1 : ((applyForce t ef s).2).firstSegment = false := by
      rw [applyForce_firstSegment, h]
    have h2 : (draw pressure (applyForce t ef s).2).2 =
        [PathEvent.extendPath, PathEvent.drawCall] := by
      rw [draw_events, h1]
      simp
    simp only [strokeDraws, List.length_cons, segTrace]
    rw [h2, ih _ (draw_firstSegment _ _)]
    rfl

/-- C2: after one Reset followed by any nonempty sequence of Draw calls
(each preceded by one ApplyForce returning nonzero), the path receives
InitPath exactly once, at the head of the trace of the first Draw and
before any ExtendPath, and every Draw (first and subsequent) emits
exactly one ExtendPath immediately followed by one path.Draw; no later
Draw of the stroke calls InitPath again. -/
theorem stroke_path_call_sequence (s0 : BrushTip) (p0 : Vec) (b : BrushInstance)
    (pressure : ℝ) (moves : List (Vec × ℚ)) (hne : moves ≠ [])
    (hmv : allMoves pressure (reset p0 b s0) moves) :
    (strokeDraws pressure (reset p0 b s0) moves).2 =
      PathEvent.initPath :: segTrace moves.length := by
  clear hmv
  cases moves with
  | nil => exact absurd rfl hne
  | cons m rest =>
    obtain ⟨t, ef⟩ := m
    have hfs : ((applyForce t ef (reset p0 b s0)).2).firstSegment = true := by
      rw [applyForce_firstSegment]
      rfl
    have h2 : (draw pressure (applyForce t ef (reset p0 b s0)).2).2 =
        [PathEvent.initPath, PathEvent.extendPath, PathEvent.drawCall] := by
      rw [draw_events, hfs]
      simp
    simp only [strokeDraws, List.length_cons, segTrace]
    rw [h2, strokeDraws_not_first pressure rest _ (draw_firstSegment _ _)]
    rfl

/-- Witness for C2: a single Draw after Reset at the origin with the
Scenario A brush and target (10, 0) produces exactly the calls
InitPath, ExtendPath, Draw, with the ApplyForce hypothesis holding
(the returned squared distance is 1). -/
theorem stroke_path_call_sequence_witness :
    (strokeDraws 1 (reset (0, 0) scenarioBrush blankTip) [((10, 0), 1)]).2 =
      [PathEvent.initPath, PathEvent.extendPath, PathEvent.drawCall] := by
  have hnz : (applyForce (10, 0) 1 (reset (0, 0) scenarioBrush blankTip)).1 ≠ 0 := by
    have h1 : ¬ getSizeSq (vsub (10, 0)
        (reset (0, 0) scenarioBrush blankTip).position) < forceThreshold := by
      norm_num [reset, blankTip, vsub, getSizeSq, forceThreshold]
    have h2 : ¬ getSizeSq (vadd (reset (0, 0) scenarioBrush blankTip).velocity
        (vscale (1 / (reset (0, 0) scenarioBrush blankTip).brush.mass)
          (vsub (10, 0) (reset (0, 0) scenarioBrush blankTip).position)))
        < velocityThreshold := by
      norm_num [reset, blankTip, scenarioBrush, vsub, vadd, vscale, getSizeSq,
        velocityThreshold]
    rw [applyForce_move _ _ _ h1 h2]
    norm_num [reset, blankTip, scenarioBrush, vsub, vadd, vscale, getSizeSq]
  exact stroke_path_call_sequence blankTip (0, 0) scenarioBrush 1 [((10, 0), 1)]
    (by simp) ⟨hnz, trivial⟩

/-- State after the first ApplyForce of Scenario A. -/
noncomputable def tipA1 : BrushTip := (applyForce (10, 0) 1 tipA).2

/-- State after the first Draw (whose getRadius assigns the position
object to previousPosition by reference). -/
noncomputable def tipA2 : BrushTip := (draw 1 tipA1).1

/-- State after the second ApplyForce, which mutates the position in
place while previousPosition still references the same object. -/
noncomputable def tipA3 : BrushTip := (applyForce (10, 0) 1 tipA2).2

/-- C3: the claim fails on the code.  After the getRadius call performed
by the first Draw, previousPosition is the position object itself, not a
snapshot of its value; the second ApplyForce moves the brush from (1,0)
to (12/5,0) and previousPosition moves with it, so at the next
interpolatePressure d1 = distance(position, previousPosition) is 0
although the brush travelled distance 7/5 since the previous getRadius
call. -/
theorem previousPosition_aliasing :
    tipA3.position = ((12/5 : ℚ), (0 : ℚ)) ∧
    tipA3.previousPosition = ((12/5 : ℚ), (0 : ℚ)) ∧
    distanceTo tipA3.position tipA3.previousPosition = 0 ∧
    distanceTo tipA3.position tipA2.position = 7/5 := by
  have h1 : ¬ getSizeSq (vsub (10, 0) tipA.position) < forceThreshold := by
    norm_num [tipA, reset, blankTip, vsub, getSizeSq, forceThreshold]
  have h2 : ¬ getSizeSq (vadd tipA.velocity
      (vscale (1 / tipA.brush.mass) (vsub (10, 0) tipA.position))) < velocityThreshold := by
    norm_num [tipA, reset, blankTip, scenarioBrush, vsub, vadd, vscale, getSizeSq,
      velocityThreshold]
  have e1 := applyForce_move (10, 0) 1 tipA h1 h2
  have hpos1 : tipA1.position = ((1 : ℚ), (0 : ℚ)) := by
    rw [tipA1, e1]
    norm_num [tipA, reset, blankTip, scenarioBrush, vsub, vadd, vscale]
  have hvel1 : tipA1.velocity = ((1 : ℚ), (0 : ℚ)) := by
    rw [tipA1, e1]
    norm_num [tipA, reset, blankTip, scenarioBrush, vsub, vadd, vscale]
  have hpos2 : tipA2.position = ((1 : ℚ), (0 : ℚ)) := by
    rw [tipA2, draw_position, hpos1]
  have hvel2 : tipA2.velocity = ((1 : ℚ), (0 : ℚ)) := by
    rw [tipA2, draw_velocity, hvel1]
  have hbr2 : tipA2.brush = scenarioBrush := by
    rw [tipA2, draw_brush, tipA1, applyForce_brush]
    rfl
  have hal2 : tipA2.prevAliasesPosition = true := by
    rw [tipA2, draw_prevAliases]
  have h1s : ¬ getSizeSq (vsub (10, 0) tipA2.position) < forceThreshold := by
    rw [hpos2]
    norm_num [vsub, getSizeSq, forceThreshold]
  have h2s : ¬ getSizeSq (vadd tipA2.velocity
      (vscale (1 / tipA2.brush.mass) (vsub (10, 0) tipA2.position))) < velocityThreshold := by
    rw [hpos2, hvel2, hbr2]
    norm_num [scenarioBrush, vsub, vadd, vscale, getSizeSq, velocityThreshold]
  have e3 := applyForce_move (10, 0) 1 tipA2 h1s h2s
  have hpos3 : tipA3.position = ((12/5 : ℚ), (0 : ℚ)) := by
    rw [tipA3, e3]
    show vadd tipA2.position _ = _
    rw [hpos2, hvel2, hbr2]
    norm_num [scenarioBrush, vsub, vadd, vscale]
  have hprev3 : tipA3.previousPosition = ((12/5 : ℚ), (0 : ℚ)) := by
    rw [tipA3, e3]
    show (if tipA2.prevAliasesPosition then _ else _) = _
    rw [hal2]
    simp only [if_true]
    rw [hpos2, hvel2, hbr2]
    norm_num [scenarioBrush, vsub, vadd, vscale]
  refine ⟨hpos3, hprev3, ?_, ?_⟩
  · rw [hpos3, hprev3]
    simp [distanceTo, getSize, vsub, getSizeSq]
  · rw [hpos3, hpos2]
    simp only [distanceTo, getSize, vsub, getSizeSq]
    rw [show ((((12:ℚ)/5 - 1) * ((12:ℚ)/5 - 1) + ((0:ℚ) - 0) * ((0:ℚ) - 0) : ℚ) : ℝ)
        = ((7:ℝ)/5)^2 by norm_num]
    exact Real.sqrt_sq (by norm_num)

/-- Configuration of the DynaDraw simulator: the four physical
constants fixed by DynaDraw.ts lines 34 to 37 together with the
brush size bounds passed to the constructor (lines 75 and 76). -/
structure DynaDrawConfig where
  minMass : ℚ
  maxMass : ℚ
  minFriction : ℚ
  maxFriction : ℚ
  minBrushSize : ℚ
  maxBrushSize : ℚ
  deriving DecidableEq

/-- DynaDraw.interpolateMass, DynaDraw.ts lines 50 to 52. -/
def interpolateMass (c : DynaDrawConfig) (brushSize : ℚ) : ℚ :=
  c.minMass + (c.maxMass - c.minMass) * (brushSize - c.minBrushSize)
    / (c.maxBrushSize - c.minBrushSize)

/-- DynaDraw.interpolateFriction, DynaDraw.ts lines 54 to 56. -/
def interpolateFriction (c : DynaDrawConfig) (brushSize : ℚ) : ℚ :=
  c.maxFriction - (c.maxFriction - c.minFriction) * (brushSize - c.minBrushSize)
    / (c.maxBrushSize - c.minBrushSize)

/-- Lookup in the brush cache (the object map of DynaDraw.ts line 61;
a stored BrushInstance is always a truthy value, so the source check
!this.brushes[brushSize] is a pure presence check). -/
def lookupBrush : List (ℚ × BrushInstance) → ℚ → Option BrushInstance
  | [], _ => none
  | (k, b) :: rest, q => if k = q then some b else lookupBrush rest q

/-- DynaDraw.GetBrush, DynaDraw.ts lines 62 to 68: return the cached
profile if present, otherwise build it from the interpolation formulas
and store it. -/
def getBrush (c : DynaDrawConfig) (cache : List (ℚ × BrushInstance)) (brushSize : ℚ) :
    BrushInstance × List (ℚ × BrushInstance) :=
  match lookupBrush cache brushSize with
  | some b => (b, cache)
  | none =>
    ((⟨interpolateMass c brushSize, interpolateFriction c brushSize, brushSize⟩ :
        BrushInstance),
      (brushSize,
        (⟨interpolateMass c brushSize, interpolateFriction c brushSize, brushSize⟩ :
          BrushInstance)) :: cache)

/-- Every profile stored in the cache was built by the interpolation
formulas (true of every cache reachable from the empty one, since
GetBrush is the only writer). -/
def cacheGood (c : DynaDrawConfig) (cache : List (ℚ × BrushInstance)) : Prop :=
  ∀ q b, lookupBrush cache q = some b →
    b = ⟨interpolateMass c q, interpolateFriction c q, q⟩

/-- C5: for every brush size q the profile returned by the cache has
mass minMass + (maxMass - minMass) * t and friction
maxFriction - (maxFriction - minFriction) * t with
t = (q - minBrushSize) / (maxBrushSize - minBrushSize), with no
clamping outside the size bounds; and in the Scenario C configuration
(minBrushSize 5, maxBrushSize 20, minMass 1, maxMass 10) the mass for
size 10 is exactly 4. -/
theorem getBrush_interpolation :
    (∀ (c : DynaDrawConfig) (cache : List (ℚ × BrushInstance)) (q : ℚ),
      cacheGood c cache →
      (getBrush c cache q).1.mass =
          c.minMass + (c.maxMass - c.minMass) *
            ((q - c.minBrushSize) / (c.maxBrushSize - c.minBrushSize)) ∧
        (getBrush c cache q).1.friction =
          c.maxFriction - (c.maxFriction - c.minFriction) *
            ((q - c.minBrushSize) / (c.maxBrushSize - c.minBrushSize))) ∧
    (getBrush ⟨1, 10, 2/5, 3/5, 5, 20⟩ [] 10).1.mass = 4 := by
  constructor
  · intro c cache q hg
    cases h : lookupBrush cache q with
    | none =>
      simp only [getBrush, h, interpolateMass, interpolateFriction]
      constructor <;> ring
    | some b =>
      simp only [getBrush, h]
      rw [hg q b h]
      simp only [interpolateMass, interpolateFriction]
      constructor <;> ring
  · simp only [getBrush, lookupBrush]
    norm_num [interpolateMass]

/-- Witness for C5: applying the formula part at the Scenario C
configuration with the empty cache (which trivially satisfies the cache
invariant) and size 10. -/
theorem getBrush_interpolation_witness :
    (getBrush ⟨1, 10, 2/5, 3/5, 5, 20⟩ [] 10).1.mass =
      1 + (10 - 1) * ((10 - 5) / (20 - 5)) ∧
    (getBrush ⟨1, 10, 2/5, 3/5, 5, 20⟩ [] 10).1.friction =
      3/5 - (3/5 - 2/5) * ((10 - 5) / (20 - 5)) :=
  getBrush_interpolation.1 ⟨1, 10, 2/5, 3/5, 5, 20⟩ [] 10
    (fun q b hb => by simp [lookupBrush] at hb)

/-- CursorState delivered by the host, Helpers.CursorState as used in
DynaDraw.ts line 100 (the timestamp is never read by DynaDraw). -/
structure CursorState where
  x : ℚ
  y : ℚ
  pressure : ℚ
  deriving DecidableEq

/-- DynaDraw.ObserveCursorMovement, DynaDraw.ts lines 100 to 121.  The
body of the try block (lines 102 to 115) builds a point, branches on
the pressure transition and calls the path factory, the path methods
and the brush tip; all of those live outside this core or may throw, so
the block is abstracted as an arbitrary function from the handler state
and the last observed cursor state to a final handler state (partial
mutations included) together with an optional raised exception.  The
catch block (lines 116 to 118) logs the exception; line 120 stores the
observed cursor state as lastState after the try/catch.  The last
component of the result is the exception propagated to the caller,
which the source structure makes impossible. -/
def observeCursorMovement {σ : Type}
    (inner : σ → Option CursorState → CursorState → σ × Option String)
    (handle : σ) (last : Option CursorState) (c : CursorState) :
    ((σ × List String) × Option CursorState) × Option String :=
  let r := inner handle last c
  let logs : List String :=
    match r.2 with
    | none => []
    | some e => ["ProcessNewState error: " ++ e]
  (((r.1, logs), some c), none)

/-- C6: for every behaviour of the try block (including every way the
path factory, path methods or brush tip calls can throw) and every
input, ObserveCursorMovement propagates no exception to its caller,
still records the observed cursor state as lastState, and logs the
caught exception at the simulator boundary. -/
theorem observe_no_propagation {σ : Type}
    (inner : σ → Option CursorState → CursorState → σ × Option String)
    (handle : σ) (last : Option CursorState) (c : CursorState) :
    (observeCursorMovement inner handle last c).2 = none ∧
    (observeCursorMovement inner handle last c).1.2 = some c ∧
    (∀ e, (inner handle last c).2 = some e →
      (observeCursorMovement inner handle last c).1.1.2 =
        ["ProcessNewState error: " ++ e]) := by
  refine ⟨rfl, rfl, ?_⟩
  intro e he
  simp only [observeCursorMovement, he]

/-- Witness for C6 with a try block that always throws: the exception
is caught and logged, nothing propagates. -/
theorem observe_no_propagation_witness :
    (observeCursorMovement (fun (_ : Unit) _ _ => ((), some "path failure")) () none
        ⟨1, 2, 1⟩).1.1.2 = ["ProcessNewState error: " ++ "path failure"] :=
  (observe_no_propagation (fun _ _ _ => ((), some "path failure")) () none ⟨1, 2, 1⟩).2.2
    "path failure" rfl

/-- Physical configuration assembled by the DynaDraw constructor: the
constants of lines 34 to 37 and the brush size bounds it receives. -/
def physConfig (minB maxB : ℚ) : DynaDrawConfig := ⟨1, 10, 2/5, 3/5, minB, maxB⟩

/-- DynaDraw constructor, DynaDraw.ts lines 73 to 92: stores the
parameters, creates the BrushTip (always with calculateSpeed true, line
81) and schedules the periodic tick (scheduling is not part of the
returned state and is not modelled).  The body contains no validation
and no throw statement, so the result is always ok. -/
noncomputable def dynaDrawConstruct (slowSimulation : Bool) (minB maxB : ℚ) :
    Except String (DynaDrawConfig × BrushTip) :=
  Except.ok (physConfig minB maxB, blankTip)

/-- Counterexample to C9: constructing with maxBrushSize 5 below
minBrushSize 20 raises nothing and succeeds silently. -/
theorem construct_accepts_inverted_sizes :
    dynaDrawConstruct true 20 5 = Except.ok (physConfig 20 5, blankTip) ∧
    ∀ e, dynaDrawConstruct true 20 5 ≠ Except.error e := by
  refine ⟨rfl, ?_⟩
  intro e h
  simp [dynaDrawConstruct] at h

/-- Amended C9: a configuration with maxBrushSize at or below
minBrushSize is accepted silently: the constructor performs no
validation and always returns a state. -/
theorem construct_accepts_any_sizes (slow : Bool) (minB maxB : ℚ) (h : maxB ≤ minB) :
    ∃ st, dynaDrawConstruct slow minB maxB = Except.ok st :=
  ⟨(physConfig minB maxB, blankTip), rfl⟩

/-- Witness for the amended C9 at the degenerate configuration with
both bounds equal to 7. -/
theorem construct_accepts_any_sizes_witness :
    ∃ st, dynaDrawConstruct false 7 7 = Except.ok st :=
  construct_accepts_any_sizes false 7 7 le_rfl

end VectorVideo
